import Mathlib

/-!
Verification of the node drain/cordon/uncordon core
(`pkg/kubectl/cmd/drain.go`).

The embedding models the remote control plane (client, decoder, namespace
resolution) as a record of response functions `ApiEnv`; the pure decision
logic of `getPodsForDeletion`, `deletePods`, `RunCordonOrUncordon` and
`RunDrain` is translated directly from the source.  Remote calls are
recorded in the results (delete-call traces, write counts) so that the
side-effect claims are statable.
-/

deriving instance DecidableEq for Except

namespace DrainSpec

/-- `api.ObjectReference` as used by the source: the fields
`Kind`, `Namespace`, `Name` of `sr.Reference`. -/
structure ObjectReference where
  kind : String
  ns : String
  name : String
  deriving DecidableEq

/-- `api.SerializedReference`: the decoded creator annotation, holding a
reference to the creating controller. -/
structure SerializedReference where
  reference : ObjectReference
  deriving DecidableEq

/-- `api.Pod` restricted to the fields the drain logic reads: `Name`,
`Namespace` and the `ObjectMeta.Annotations` map (modelled as an
association list with the Go map's lookup). -/
structure Pod where
  name : String
  ns : String
  anns : List (String × String)
  deriving DecidableEq

/-- Go map lookup `m[k]` on the association-list model: the first binding
of the key, if any. -/
def lookupAnn (anns : List (String × String)) (k : String) : Option String :=
  (anns.find? (fun kv => kv.1 == k)).map (fun kv => kv.2)

/-- `types.ConfigMirrorAnnotationKey`: the mirror-pod marker key. -/
def ConfigMirrorKey : String := "kubernetes.io/config.mirror"

/-- `controller.CreatedByAnnotation`: the created-by (owner reference) key. -/
def CreatedByKey : String := "kubernetes.io/created-by"

/-- `api.DeleteOptions`: only the optional grace period is used. -/
structure DeleteOptions where
  gracePeriodSeconds : Option Int
  deriving DecidableEq

/-- `resource.Info` for the node restricted to what `RunCordonOrUncordon`
reads: the name, `Mapping.GroupVersionKind.Kind`, `Mapping.Resource`, and
the in-memory object's `Spec.Unschedulable` flag. -/
structure NodeInfo where
  name : String
  mappingKind : String
  mappingResource : String
  unschedulable : Bool
  deriving DecidableEq

/-- The remote control plane and factory collaborators, as response
functions.  `Except String` models Go's `(value, error)` returns; the
`get*` lookups return `Except String (Option Unit)` because the source
checks both `err == nil` and a non-nil result pointer. -/
structure ApiEnv where
  defaultNamespace : Except String String
  listPods : String → Except String (List Pod)
  decode : String → Except String SerializedReference
  getRC : String → String → Except String (Option Unit)
  getDS : String → String → Except String (Option Unit)
  getJob : String → String → Except String (Option Unit)
  deletePod : String → String → DeleteOptions → Except String Unit
  replaceNode : String → String → NodeInfo → Except String Unit

/-- The source's test `err == nil && r != nil` on a controller lookup. -/
def existsOk (r : Except String (Option Unit)) : Bool :=
  match r with
  | .ok (some _) => true
  | _ => false

/-- The body of drain.go lines 206-242 computing `replicated` for one pod:
read the created-by annotation; when present, decode it (a decode failure
aborts with the error), then for a recognized kind check that the
controller exists; any other case leaves `replicated = false`. -/
def podReplicated (env : ApiEnv) (pod : Pod) : Except String Bool :=
  match lookupAnn pod.anns CreatedByKey with
  | none => .ok false
  | some creatorRef =>
    match env.decode creatorRef with
    | .error e => .error e
    | .ok sr =>
      if sr.reference.kind = "ReplicationController" then
        .ok (existsOk (env.getRC sr.reference.ns sr.reference.name))
      else if sr.reference.kind = "DaemonSet" then
        .ok (existsOk (env.getDS sr.reference.ns sr.reference.name))
      else if sr.reference.kind = "Job" then
        .ok (existsOk (env.getJob sr.reference.ns sr.reference.name))
      else
        .ok false

/-- The pod has the mirror marker annotation (drain.go line 201). -/
def isMirror (pod : Pod) : Bool :=
  (lookupAnn pod.anns ConfigMirrorKey).isSome

/-- The classification loop of `getPodsForDeletion` (drain.go lines
200-249) with its two accumulators `pods` and `unreplicatedPodNames`.
Result: (pods, unreplicatedPodNames, decode error if one aborted the
loop).  A mirror pod is skipped; otherwise `replicated` is computed (a
decode error returns the accumulators so far together with the error);
the pod is appended to `pods` when `replicated || force` and its name to
the unreplicated list when `!replicated`. -/
def classifyLoop (env : ApiEnv) (force : Bool) :
    List Pod → List Pod → List String → List Pod × List String × Option String
  | [], pods, unrep => (pods, unrep, none)
  | pod :: rest, pods, unrep =>
    if isMirror pod then
      classifyLoop env force rest pods unrep
    else
      match podReplicated env pod with
      | .error e => (pods, unrep, some e)
      | .ok replicated =>
        classifyLoop env force rest
          (if replicated || force then pods ++ [pod] else pods)
          (if !replicated then unrep ++ [pod.name] else unrep)

/-- The classification loop started on empty accumulators, as
`getPodsForDeletion` runs it. -/
def classifyPods (env : ApiEnv) (force : Bool) (podList : List Pod) :
    List Pod × List String × Option String :=
  classifyLoop env force podList [] []

/-- The error message of drain.go line 254, around the joined blocked
names. -/
def blockedErrMsg (joined : String) : String :=
  "refusing to continue due to pods managed by neither a ReplicationController, nor a Job, nor a DaemonSet: "
    ++ joined ++ " (use --force to override)"

/-- The warning of drain.go line 256, around the joined blocked names. -/
def blockedWarnMsg (joined : String) : String :=
  "WARNING: About to delete these pods managed by neither a ReplicationController, nor a Job, nor a DaemonSet: "
    ++ joined

/-- `getPodsForDeletion` after the listing (drain.go lines 198-258):
run the loop; on a decode error return the pods so far with that error;
otherwise, when unreplicated names exist, either fail with the joined
names (no force) or warn (force); result is
(returned pods, returned error, emitted warnings). -/
def getPodsForDeletionList (env : ApiEnv) (force : Bool) (podList : List Pod) :
    List Pod × Option String × List String :=
  match classifyPods env force podList with
  | (pods, _, some e) => (pods, some e, [])
  | (pods, unrep, none) =>
    if unrep.length > 0 then
      let joined := String.intercalate ", " unrep
      if !force then (pods, some (blockedErrMsg joined), [])
      else (pods, none, [blockedWarnMsg joined])
    else (pods, none, [])

/-- `getPodsForDeletion` (drain.go lines 192-259): list the pods placed
on the node (a list error is returned with the empty pod list, line 196),
then classify. -/
def getPodsForDeletion (env : ApiEnv) (force : Bool) (nodeName : String) :
    List Pod × Option String × List String :=
  match env.listPods nodeName with
  | .error e => ([], some e, [])
  | .ok podList => getPodsForDeletionList env force podList

/-- drain.go lines 263-267: the delete options carry the grace period
only when the configured value is non-negative. -/
def mkDeleteOptions (gracePeriodSeconds : Int) : DeleteOptions :=
  if gracePeriodSeconds ≥ 0 then ⟨some gracePeriodSeconds⟩ else ⟨none⟩

/-- `deletePods` (drain.go lines 262-278): issue one delete per pod, in
list order, stopping at the first error.  Result: the (namespace, name)
trace of the delete calls issued, and the first error if any. -/
def deletePods (env : ApiEnv) (gracePeriodSeconds : Int) :
    List Pod → List (String × String) × Option String
  | [] => ([], none)
  | pod :: rest =>
    match env.deletePod pod.ns pod.name (mkDeleteOptions gracePeriodSeconds) with
    | .error e => ([(pod.ns, pod.name)], some e)
    | .ok _ =>
      let r := deletePods env gracePeriodSeconds rest
      ((pod.ns, pod.name) :: r.1, r.2)

/-- `already` (drain.go lines 310-315). -/
def already (desired : Bool) : String :=
  if desired then "already cordoned" else "already uncordoned"

/-- `changed` (drain.go lines 317-322). -/
def changed (desired : Bool) : String :=
  if desired then "cordoned" else "uncordoned"

/-- The observable outcome of `RunCordonOrUncordon`: the in-memory node
object after the call, the number of remote replace calls issued, the
status verb printed (if any), and the returned error (if any). -/
structure CordonResult where
  nodeInfo : NodeInfo
  writes : Nat
  status : Option String
  err : Option String
  deriving DecidableEq

/-- `RunCordonOrUncordon` (drain.go lines 282-306): resolve the default
namespace; on a Node, compare the in-memory `Unschedulable` flag with
`desired` — equal means print the `already` status with no write,
different means set the in-memory flag, issue one replace, and either
return the replace error or print the `changed` status.  A non-Node
object is skipped with status "skipped" and no error. -/
def RunCordonOrUncordon (env : ApiEnv) (info : NodeInfo) (desired : Bool) :
    CordonResult :=
  match env.defaultNamespace with
  | .error e => ⟨info, 0, none, some e⟩
  | .ok cmdNamespace =>
    if info.mappingKind = "Node" then
      if info.unschedulable = desired then
        ⟨info, 0, some (already desired), none⟩
      else
        let info2 := { info with unschedulable := desired }
        match env.replaceNode cmdNamespace info.name info2 with
        | .error e => ⟨info2, 1, none, some e⟩
        | .ok _ => ⟨info2, 1, some (changed desired), none⟩
    else
      ⟨info, 0, some "skipped", none⟩

/-- The observable outcome of `RunDrain`: the in-memory node object, the
trace of pod delete calls issued, the warnings emitted, and the returned
error (if any). -/
structure DrainResult where
  nodeInfo : NodeInfo
  deleteCalls : List (String × String)
  warnings : List String
  err : Option String
  deriving DecidableEq

/-- `RunDrain` (drain.go lines 172-187): cordon, then classify, then
delete, each failure short-circuiting the rest. -/
def RunDrain (env : ApiEnv) (force : Bool) (gracePeriodSeconds : Int)
    (info : NodeInfo) : DrainResult :=
  let c := RunCordonOrUncordon env info true
  match c.err with
  | some e => ⟨c.nodeInfo, [], [], some e⟩
  | none =>
    match getPodsForDeletion env force info.name with
    | (_, some e, warns) => ⟨c.nodeInfo, [], warns, some e⟩
    | (pods, none, warns) =>
      let d := deletePods env gracePeriodSeconds pods
      ⟨c.nodeInfo, d.1, warns, d.2⟩

/-! ### Concrete example data

A small control plane used to evaluate the theorems at concrete inputs:
one existing ReplicationController `rc1` reachable through the payload
"rc-ref", every other payload failing to decode, a pod delete that fails
exactly on the pod named "bad", and a node replace that always fails with
"conflict". -/

/-- A pod managed by the existing ReplicationController `rc1`. -/
def managedPod : Pod :=
  ⟨"pod-a", "default", [(CreatedByKey, "rc-ref")]⟩

/-- A pod with no owner reference at all. -/
def unmanagedPod : Pod :=
  ⟨"pod-b", "default", []⟩

/-- A mirror pod with no owner reference. -/
def mirrorPod : Pod :=
  ⟨"pod-m", "default", [(ConfigMirrorKey, "mirror")]⟩

/-- A mirror pod that also carries a valid reference to the existing
ReplicationController `rc1`. -/
def mirrorManagedPod : Pod :=
  ⟨"pod-mm", "default", [(ConfigMirrorKey, "mirror"), (CreatedByKey, "rc-ref")]⟩

/-- A mirror pod whose owner-reference payload does not decode. -/
def mirrorBadRefPod : Pod :=
  ⟨"pod-mb", "default", [(ConfigMirrorKey, "mirror"), (CreatedByKey, "bad-ref")]⟩

/-- A non-mirror pod whose owner-reference payload does not decode. -/
def badRefPod : Pod :=
  ⟨"pod-c", "default", [(CreatedByKey, "bad-ref")]⟩

/-- A pod whose delete call fails in `exEnv`. -/
def badDeletePod : Pod :=
  ⟨"bad", "default", []⟩

/-- The example control plane. -/
def exEnv : ApiEnv where
  defaultNamespace := .ok "default"
  listPods := fun n =>
    if n = "node-1" then .ok [managedPod, unmanagedPod]
    else if n = "node-6" then .ok [badRefPod]
    else .ok []
  decode := fun s =>
    if s = "rc-ref" then .ok ⟨⟨"ReplicationController", "default", "rc1"⟩⟩
    else .error "decode failure"
  getRC := fun _ n => if n = "rc1" then .ok (some ()) else .error "not found"
  getDS := fun _ _ => .error "not found"
  getJob := fun _ _ => .error "not found"
  deletePod := fun _ n _ => if n = "bad" then .error "delete failed" else .ok ()
  replaceNode := fun _ _ _ => .error "conflict"

/-- An uncordoned node resolved as kind Node. -/
def exNode : NodeInfo := ⟨"node-1", "Node", "nodes", false⟩

/-- An already-cordoned node resolved as kind Node. -/
def cordonedNode : NodeInfo := ⟨"node-1", "Node", "nodes", true⟩

/-- A resolved object whose kind is not Node. -/
def exNonNode : NodeInfo := ⟨"rc1", "ReplicationController", "replicationcontrollers", false⟩

/-- The node whose listing is the single bad-reference pod. -/
def exNode6 : NodeInfo := ⟨"node-6", "Node", "nodes", false⟩

/-! ### Helper lemmas about the classification loop -/

/-- The loop is a homomorphism in its accumulators: running it on any
accumulators is running it on empty ones and appending. -/
theorem classifyLoop_acc (env : ApiEnv) (force : Bool) :
    ∀ (l : List Pod) (pods : List Pod) (unrep : List String),
      classifyLoop env force l pods unrep =
        (pods ++ (classifyPods env force l).1,
         unrep ++ (classifyPods env force l).2.1,
         (classifyPods env force l).2.2) := by
  intro l
  induction l with
  | nil => intro pods unrep; simp [classifyLoop, classifyPods]
  | cons pod rest ih =>
    intro pods unrep
    by_cases hm : isMirror pod
    · simp only [classifyPods, classifyLoop, hm, if_pos]
      rw [ih, ih]; simp
    · simp only [classifyPods, classifyLoop, hm, if_neg, Bool.false_eq_true,
        not_false_eq_true]
      cases hr : podReplicated env pod with
      | error e => simp
      | ok replicated =>
        cases replicated <;> cases force <;> simp [ih]

/-- Pods already in the accumulator stay in the loop's result. -/
theorem classifyLoop_mem (env : ApiEnv) (force : Bool)
    (l : List Pod) (pods : List Pod) (unrep : List String) (x : Pod)
    (hx : x ∈ pods) : x ∈ (classifyLoop env force l pods unrep).1 := by
  rw [classifyLoop_acc]
  exact List.mem_append_left _ hx

/-- When classification returns an error, `RunDrain` issues no delete
call and returns an error. -/
theorem RunDrain_abort (env : ApiEnv) (force : Bool) (gps : Int)
    (info : NodeInfo) (e : String)
    (hc : (getPodsForDeletion env force info.name).2.1 = some e) :
    (RunDrain env force gps info).deleteCalls = [] ∧
    (RunDrain env force gps info).err.isSome = true := by
  unfold RunDrain
  cases hco : (RunCordonOrUncordon env info true).err with
  | some e2 => simp [hco]
  | none =>
    simp only [hco]
    cases hg : getPodsForDeletion env force info.name with
    | mk pods rest =>
      cases rest with
      | mk errv warns =>
        cases errv with
        | some e3 => simp
        | none => rw [hg] at hc; simp at hc

/-- Inserting a mirror pod anywhere in the listing leaves the
classification loop's result unchanged, for any accumulators. -/
theorem classifyLoop_insert_mirror (env : ApiEnv) (force : Bool) (p : Pod)
    (hm : isMirror p = true) :
    ∀ (l1 l2 : List Pod) (pods : List Pod) (unrep : List String),
      classifyLoop env force (l1 ++ p :: l2) pods unrep =
        classifyLoop env force (l1 ++ l2) pods unrep := by
  intro l1
  induction l1 with
  | nil => intro l2 pods unrep; simp [classifyLoop, hm]
  | cons q l1 ih =>
    intro l2 pods unrep
    by_cases hq : isMirror q
    · simp only [List.cons_append, classifyLoop, hq, if_pos]
      exact ih l2 pods unrep
    · simp only [List.cons_append, classifyLoop, hq, if_neg, Bool.false_eq_true,
        not_false_eq_true]
      cases podReplicated env q with
      | error e => rfl
      | ok replicated => exact ih l2 _ _

/-! ### The claims -/

/-- C4: for every workload carrying the mirror marker annotation,
classify excludes it from both the approved set and the blocked-names
list, for every value of the force flag: inserting the mirror pod at any
position in the listing leaves the entire result of `getPodsForDeletion`
(approved pods, error, warnings) unchanged. -/
theorem C4_mirror_excluded (env : ApiEnv) (force : Bool)
    (l1 l2 : List Pod) (p : Pod) (hm : isMirror p = true) :
    getPodsForDeletionList env force (l1 ++ p :: l2) =
      getPodsForDeletionList env force (l1 ++ l2) := by
  unfold getPodsForDeletionList classifyPods
  rw [classifyLoop_insert_mirror env force p hm]

/-- C4 witness: the concrete mirror pod changes nothing when inserted
between a managed and an unmanaged pod. -/
theorem C4_mirror_excluded_witness :
    isMirror mirrorPod = true ∧
    getPodsForDeletionList exEnv false ([managedPod] ++ mirrorPod :: [unmanagedPod]) =
      getPodsForDeletionList exEnv false ([managedPod] ++ [unmanagedPod]) :=
  ⟨by decide, C4_mirror_excluded exEnv false [managedPod] [unmanagedPod] mirrorPod (by decide)⟩

/-- C10: the mirror-marker check precedes owner-reference decoding:
a workload carrying the mirror marker whose serialized owner-reference
payload fails to decode never causes a decode error — classification of
a listing containing it equals classification without it, and in
particular still succeeds whenever the rest succeeds. -/
theorem C10_mirror_before_decode (env : ApiEnv) (force : Bool)
    (l1 l2 : List Pod) (p : Pod) (payload e : String)
    (hm : isMirror p = true)
    (ha : lookupAnn p.anns CreatedByKey = some payload)
    (hd : env.decode payload = .error e) :
    classifyPods env force (l1 ++ p :: l2) = classifyPods env force (l1 ++ l2) ∧
    ((classifyPods env force (l1 ++ l2)).2.2 = none →
      (classifyPods env force (l1 ++ p :: l2)).2.2 = none) := by
  have h := classifyLoop_insert_mirror env force p hm l1 l2 [] []
  refine ⟨h, fun hn => ?_⟩
  unfold classifyPods at *
  rw [h]
  exact hn

/-- C10 witness: a mirror pod whose payload "bad-ref" fails to decode is
skipped before decoding, so the listing still classifies cleanly. -/
theorem C10_mirror_before_decode_witness :
    isMirror mirrorBadRefPod = true ∧
    lookupAnn mirrorBadRefPod.anns CreatedByKey = some "bad-ref" ∧
    exEnv.decode "bad-ref" = .error "decode failure" ∧
    (classifyPods exEnv false ([] ++ mirrorBadRefPod :: [unmanagedPod]) =
        classifyPods exEnv false ([] ++ [unmanagedPod]) ∧
      ((classifyPods exEnv false ([] ++ [unmanagedPod])).2.2 = none →
        (classifyPods exEnv false ([] ++ mirrorBadRefPod :: [unmanagedPod])).2.2 = none)) :=
  ⟨by decide, by decide, by decide,
    C10_mirror_before_decode exEnv false [] [unmanagedPod] mirrorBadRefPod "bad-ref"
      "decode failure" (by decide) (by decide) (by decide)⟩

/-- C2 counterexample: the claim omits the mirror exclusion.  A workload
carrying the mirror marker together with an owner reference that decodes
to the existing recognized ReplicationController `rc1` satisfies every
hypothesis of the claim, yet classify appends it to the approved set
under neither value of the force flag (the approved set stays empty). -/
theorem C2_counterexample :
    lookupAnn mirrorManagedPod.anns CreatedByKey = some "rc-ref" ∧
    exEnv.decode "rc-ref" = .ok ⟨⟨"ReplicationController", "default", "rc1"⟩⟩ ∧
    exEnv.getRC "default" "rc1" = .ok (some ()) ∧
    (getPodsForDeletionList exEnv false [mirrorManagedPod]).1 = [] ∧
    (getPodsForDeletionList exEnv true [mirrorManagedPod]).1 = [] := by
  decide

/-- C2 (amended with the mirror exclusion): every non-mirror workload
whose owner reference decodes successfully and names one of the three
recognized controller kinds whose get-by-name lookup succeeds with a
non-nil result is classified managed: it is appended to the approved set
and not to the blocked names, regardless of the force flag. -/
theorem C2_managed_approved (env : ApiEnv) (force : Bool)
    (rest pods : List Pod) (unrep : List String)
    (p : Pod) (payload : String) (sr : SerializedReference)
    (hm : isMirror p = false)
    (ha : lookupAnn p.anns CreatedByKey = some payload)
    (hd : env.decode payload = .ok sr)
    (hk : (sr.reference.kind = "ReplicationController" ∧
             existsOk (env.getRC sr.reference.ns sr.reference.name) = true) ∨
          (sr.reference.kind = "DaemonSet" ∧
             existsOk (env.getDS sr.reference.ns sr.reference.name) = true) ∨
          (sr.reference.kind = "Job" ∧
             existsOk (env.getJob sr.reference.ns sr.reference.name) = true)) :
    classifyLoop env force (p :: rest) pods unrep =
      classifyLoop env force rest (pods ++ [p]) unrep ∧
    p ∈ (classifyLoop env force (p :: rest) pods unrep).1 := by
  have hrep : podReplicated env p = .ok true := by
    unfold podReplicated
    rw [ha]
    simp only [hd]
    rcases hk with ⟨hk1, hk2⟩ | ⟨hk1, hk2⟩ | ⟨hk1, hk2⟩ <;> rw [hk1] <;> simp [hk2]
  have hstep : classifyLoop env force (p :: rest) pods unrep =
      classifyLoop env force rest (pods ++ [p]) unrep := by
    simp [classifyLoop, hm, hrep]
  refine ⟨hstep, ?_⟩
  rw [hstep]
  exact classifyLoop_mem env force rest (pods ++ [p]) unrep p
    (List.mem_append_right pods (List.mem_singleton.mpr rfl))

/-- C2 witness: the pod owned by the existing `rc1` is appended to the
approved set. -/
theorem C2_managed_approved_witness :
    isMirror managedPod = false ∧
    lookupAnn managedPod.anns CreatedByKey = some "rc-ref" ∧
    exEnv.decode "rc-ref" = .ok ⟨⟨"ReplicationController", "default", "rc1"⟩⟩ ∧
    existsOk (exEnv.getRC "default" "rc1") = true ∧
    (classifyLoop exEnv false (managedPod :: [unmanagedPod]) [] [] =
        classifyLoop exEnv false [unmanagedPod] ([] ++ [managedPod]) [] ∧
      managedPod ∈ (classifyLoop exEnv false (managedPod :: [unmanagedPod]) [] []).1) :=
  ⟨by decide, by decide, by decide, by decide,
    C2_managed_approved exEnv false [unmanagedPod] [] []
      managedPod "rc-ref" ⟨⟨"ReplicationController", "default", "rc1"⟩⟩
      (by decide) (by decide) (by decide) (Or.inl ⟨rfl, by decide⟩)⟩

/-- C3: every non-mirror workload whose owner reference is absent, of an
unrecognized kind, or whose existence check returns any error or a nil
result is treated as unmanaged: its name joins the blocked names, and —
when the rest of the listing classifies cleanly as `(ps, us, none)` —
with force=false the returned error carries the joined blocked names
including it, while with force=true it is appended to the approved set,
no error is returned, and only a warning naming it is emitted. -/
theorem C3_unmanaged (env : ApiEnv) (force : Bool)
    (rest : List Pod) (ps : List Pod) (us : List String) (p : Pod)
    (hm : isMirror p = false)
    (hu : lookupAnn p.anns CreatedByKey = none ∨
          ∃ payload sr, lookupAnn p.anns CreatedByKey = some payload ∧
            env.decode payload = .ok sr ∧
            ((sr.reference.kind ≠ "ReplicationController" ∧
                sr.reference.kind ≠ "DaemonSet" ∧ sr.reference.kind ≠ "Job") ∨
             (sr.reference.kind = "ReplicationController" ∧
                existsOk (env.getRC sr.reference.ns sr.reference.name) = false) ∨
             (sr.reference.kind = "DaemonSet" ∧
                existsOk (env.getDS sr.reference.ns sr.reference.name) = false) ∨
             (sr.reference.kind = "Job" ∧
                existsOk (env.getJob sr.reference.ns sr.reference.name) = false)))
    (hr : classifyPods env force rest = (ps, us, none)) :
    classifyPods env force (p :: rest) =
      ((if force then p :: ps else ps), p.name :: us, none) ∧
    p.name ∈ p.name :: us ∧
    getPodsForDeletionList env force (p :: rest) =
      (if force then
        ((p :: ps), none, [blockedWarnMsg (String.intercalate ", " (p.name :: us))])
       else
        (ps, some (blockedErrMsg (String.intercalate ", " (p.name :: us))), [])) := by
  have hrep : podReplicated env p = .ok false := by
    unfold podReplicated
    rcases hu with h0 | ⟨payload, sr, ha, hd, hkind⟩
    · rw [h0]
    · rw [ha]
      simp only [hd]
      rcases hkind with ⟨hk1, hk2, hk3⟩ | ⟨hk1, hk2⟩ | ⟨hk1, hk2⟩ | ⟨hk1, hk2⟩
      · rw [if_neg hk1, if_neg hk2, if_neg hk3]
      · rw [hk1]; simp [hk2]
      · rw [hk1]; simp [hk2]
      · rw [hk1]; simp [hk2]
  have hstep : classifyPods env force (p :: rest) =
      ((if force then p :: ps else ps), p.name :: us, none) := by
    unfold classifyPods classifyLoop
    simp only [hm, Bool.false_eq_true, if_neg, not_false_eq_true, hrep]
    rw [classifyLoop_acc, hr]
    cases force <;> simp
  refine ⟨hstep, List.mem_cons_self _ _, ?_⟩
  unfold getPodsForDeletionList
  rw [hstep]
  cases force <;> simp

/-- C3 witness: the pod with no owner reference, after a rest consisting
of the managed pod, blocks without force and is force-deletable with a
warning. -/
theorem C3_unmanaged_witness :
    isMirror unmanagedPod = false ∧
    lookupAnn unmanagedPod.anns CreatedByKey = none ∧
    classifyPods exEnv false [managedPod] = ([managedPod], [], none) ∧
    (classifyPods exEnv false (unmanagedPod :: [managedPod]) =
        ((if false then unmanagedPod :: [managedPod] else [managedPod]),
          unmanagedPod.name :: [], none) ∧
      unmanagedPod.name ∈ unmanagedPod.name :: ([] : List String) ∧
      getPodsForDeletionList exEnv false (unmanagedPod :: [managedPod]) =
        (if false then
          ((unmanagedPod :: [managedPod]), none,
            [blockedWarnMsg (String.intercalate ", " (unmanagedPod.name :: []))])
         else
          ([managedPod],
            some (blockedErrMsg (String.intercalate ", " (unmanagedPod.name :: []))),
            []))) :=
  ⟨by decide, by decide, by decide,
    C3_unmanaged exEnv false [managedPod] [managedPod] [] unmanagedPod
      (by decide) (Or.inl (by decide)) (by decide)⟩

/-- C1 counterexample: a listing holding the managed pod `pod-a` and the
unmanaged pod `pod-b`, classified with force unset, returns the blocked
error carrying the joined name "pod-b" — but the approved set returned
alongside it is `[managedPod]`, not empty, refuting the claim's "empty
approved set". -/
theorem C1_counterexample :
    (getPodsForDeletionList exEnv false [managedPod, unmanagedPod]).2.1 =
      some (blockedErrMsg "pod-b") ∧
    (getPodsForDeletionList exEnv false [managedPod, unmanagedPod]).1 = [managedPod] ∧
    [managedPod] ≠ ([] : List Pod) := by
  decide

/-- C1 (amended: the approved list returned with the error holds the
managed pods, it is not empty; drain discards it): when the full pass
classifies cleanly with a non-empty blocked-names list `us` and force is
not set, `getPodsForDeletion` returns the error carrying the
comma-joined blocked names together with the managed pods accumulated in
`ps`, and drain issues zero delete calls. -/
theorem C1_blocked_gate (env : ApiEnv) (l ps : List Pod) (us : List String)
    (gps : Int) (info : NodeInfo)
    (hc : classifyPods env false l = (ps, us, none)) (hne : us ≠ []) :
    getPodsForDeletionList env false l =
      (ps, some (blockedErrMsg (String.intercalate ", " us)), []) ∧
    (env.listPods info.name = .ok l →
      (RunDrain env false gps info).deleteCalls = []) := by
  have h1 : getPodsForDeletionList env false l =
      (ps, some (blockedErrMsg (String.intercalate ", " us)), []) := by
    unfold getPodsForDeletionList
    rw [hc]
    simp [List.length_pos.mpr hne]
  refine ⟨h1, fun hl => ?_⟩
  have hgd : getPodsForDeletion env false info.name =
      (ps, some (blockedErrMsg (String.intercalate ", " us)), []) := by
    unfold getPodsForDeletion
    rw [hl]
    exact h1
  refine (RunDrain_abort env false gps info
    (blockedErrMsg (String.intercalate ", " us)) ?_).1
  rw [hgd]

/-- C1 witness: the two-pod listing on node-1 blocks with the joined
name "pod-b", and drain on node-1 issues no delete call. -/
theorem C1_blocked_gate_witness :
    classifyPods exEnv false [managedPod, unmanagedPod] =
      ([managedPod], ["pod-b"], none) ∧
    (["pod-b"] : List String) ≠ [] ∧
    (getPodsForDeletionList exEnv false [managedPod, unmanagedPod] =
        ([managedPod], some (blockedErrMsg (String.intercalate ", " ["pod-b"])), []) ∧
      (exEnv.listPods exNode.name = .ok [managedPod, unmanagedPod] →
        (RunDrain exEnv false (-1) exNode).deleteCalls = [])) :=
  ⟨by decide, by decide,
    C1_blocked_gate exEnv [managedPod, unmanagedPod] [managedPod] ["pod-b"]
      (-1) exNode (by decide) (by decide)⟩

/-- C6: a non-mirror workload whose serialized owner-reference payload
fails to decode aborts classification immediately — the loop stops with
exactly the decode error and the accumulators so far, `getPodsForDeletion`
on a listing headed by that workload returns the decode error (not an
unmanaged classification), and drain issues zero delete calls and fails. -/
theorem C6_decode_abort (env : ApiEnv) (force : Bool) (gps : Int)
    (info : NodeInfo) (p : Pod) (payload e : String)
    (rest pods : List Pod) (unrep : List String)
    (hm : isMirror p = false)
    (ha : lookupAnn p.anns CreatedByKey = some payload)
    (hd : env.decode payload = .error e) :
    classifyLoop env force (p :: rest) pods unrep = (pods, unrep, some e) ∧
    getPodsForDeletionList env force (p :: rest) = ([], some e, []) ∧
    (env.listPods info.name = .ok (p :: rest) →
      (RunDrain env force gps info).deleteCalls = [] ∧
      (RunDrain env force gps info).err.isSome = true) := by
  have hrep : podReplicated env p = .error e := by
    unfold podReplicated
    rw [ha]
    simp only [hd]
  have hstep : ∀ (pods2 : List Pod) (unrep2 : List String),
      classifyLoop env force (p :: rest) pods2 unrep2 = (pods2, unrep2, some e) := by
    intro pods2 unrep2
    unfold classifyLoop
    simp [hm, hrep]
  have hlist : getPodsForDeletionList env force (p :: rest) = ([], some e, []) := by
    unfold getPodsForDeletionList classifyPods
    rw [hstep [] []]
  refine ⟨hstep pods unrep, hlist, fun hl => ?_⟩
  have hgd : getPodsForDeletion env force info.name = ([], some e, []) := by
    unfold getPodsForDeletion
    rw [hl]
    exact hlist
  refine RunDrain_abort env force gps info e ?_
  rw [hgd]

/-- C6 witness: the pod with the undecodable payload "bad-ref" aborts
classification of node-6's listing, and drain on node-6 deletes
nothing. -/
theorem C6_decode_abort_witness :
    isMirror badRefPod = false ∧
    lookupAnn badRefPod.anns CreatedByKey = some "bad-ref" ∧
    exEnv.decode "bad-ref" = .error "decode failure" ∧
    (classifyLoop exEnv false (badRefPod :: []) [] [] = ([], [], some "decode failure") ∧
      getPodsForDeletionList exEnv false (badRefPod :: []) =
        ([], some "decode failure", []) ∧
      (exEnv.listPods exNode6.name = .ok (badRefPod :: []) →
        (RunDrain exEnv false (-1) exNode6).deleteCalls = [] ∧
        (RunDrain exEnv false (-1) exNode6).err.isSome = true)) :=
  ⟨by decide, by decide, by decide,
    C6_decode_abort exEnv false (-1) exNode6 badRefPod "bad-ref" "decode failure"
      [] [] [] (by decide) (by decide) (by decide)⟩

/-- The node object `RunDrain` reports is exactly the one the cordon
step produced: no later step of drain touches the node again. -/
theorem RunDrain_nodeInfo (env : ApiEnv) (force : Bool) (gps : Int)
    (info : NodeInfo) :
    (RunDrain env force gps info).nodeInfo =
      (RunCordonOrUncordon env info true).nodeInfo := by
  simp only [RunDrain]
  cases (RunCordonOrUncordon env info true).err with
  | some e => rfl
  | none =>
    cases hg : getPodsForDeletion env force info.name with
    | mk a b =>
      cases b with
      | mk errv w => cases errv <;> simp [hg]

/-- C7: deletePods issues deletions one at a time in list order; on the
first delete failure it returns that error immediately — the trace of
delete calls is exactly the successful prefix followed by the failing
call, later workloads receive no call; an all-successful list is
traversed whole in order; and drain never touches the node object after
the cordon step (the cordon is not reversed). -/
theorem C7_sequential_delete (env : ApiEnv) (gps : Int)
    (l1 l2 : List Pod) (p : Pod) (e : String)
    (h1 : ∀ q ∈ l1, env.deletePod q.ns q.name (mkDeleteOptions gps) = .ok ())
    (h2 : env.deletePod p.ns p.name (mkDeleteOptions gps) = .error e) :
    deletePods env gps (l1 ++ p :: l2) =
      (l1.map (fun q => (q.ns, q.name)) ++ [(p.ns, p.name)], some e) ∧
    (∀ (l : List Pod),
      (∀ q ∈ l, env.deletePod q.ns q.name (mkDeleteOptions gps) = .ok ()) →
        deletePods env gps l = (l.map (fun q => (q.ns, q.name)), none)) ∧
    (∀ (force : Bool) (info : NodeInfo),
      (RunDrain env force gps info).nodeInfo =
        (RunCordonOrUncordon env info true).nodeInfo) := by
  refine ⟨?_, ?_, fun force info => RunDrain_nodeInfo env force gps info⟩
  · induction l1 with
    | nil => simp [deletePods, h2]
    | cons q l1 ih =>
      have hq : env.deletePod q.ns q.name (mkDeleteOptions gps) = .ok () :=
        h1 q (List.mem_cons_self q l1)
      have ih2 := ih (fun r hr => h1 r (List.mem_cons_of_mem q hr))
      simp [deletePods, hq, ih2]
  · intro l hl
    induction l with
    | nil => rfl
    | cons q l ih =>
      have hq : env.deletePod q.ns q.name (mkDeleteOptions gps) = .ok () :=
        hl q (List.mem_cons_self q l)
      have ih2 := ih (fun r hr => hl r (List.mem_cons_of_mem q hr))
      simp [deletePods, hq, ih2]

/-- C7 witness: deleting [managedPod, badDeletePod, unmanagedPod] calls
delete on the first two in order, fails on "bad", and never calls the
third. -/
theorem C7_sequential_delete_witness :
    (∀ q ∈ [managedPod],
      exEnv.deletePod q.ns q.name (mkDeleteOptions (-1)) = .ok ()) ∧
    exEnv.deletePod badDeletePod.ns badDeletePod.name (mkDeleteOptions (-1)) =
      .error "delete failed" ∧
    (deletePods exEnv (-1) ([managedPod] ++ badDeletePod :: [unmanagedPod]) =
        ([managedPod].map (fun q => (q.ns, q.name)) ++
          [(badDeletePod.ns, badDeletePod.name)], some "delete failed") ∧
      (∀ (l : List Pod),
        (∀ q ∈ l, exEnv.deletePod q.ns q.name (mkDeleteOptions (-1)) = .ok ()) →
          deletePods exEnv (-1) l = (l.map (fun q => (q.ns, q.name)), none)) ∧
      (∀ (force : Bool) (info : NodeInfo),
        (RunDrain exEnv force (-1) info).nodeInfo =
          (RunCordonOrUncordon exEnv info true).nodeInfo)) :=
  ⟨by decide, by decide,
    C7_sequential_delete exEnv (-1) [managedPod] [unmanagedPod] badDeletePod
      "delete failed" (by decide) (by decide)⟩

/-- C5: `RunCordonOrUncordon` is idempotent.  On a resolved Node whose
in-memory unschedulable flag already equals the desired value it performs
zero remote writes and reports the already-cordoned/uncordoned status;
when the flag differs it issues exactly one replace; and every invocation
whatsoever issues at most one replace. -/
theorem C5_cordon_idempotent (env : ApiEnv) (info : NodeInfo) (desired : Bool)
    (nsp : String)
    (h1 : env.defaultNamespace = .ok nsp) (h2 : info.mappingKind = "Node") :
    (info.unschedulable = desired →
      RunCordonOrUncordon env info desired =
        ⟨info, 0, some (already desired), none⟩) ∧
    (info.unschedulable ≠ desired →
      (RunCordonOrUncordon env info desired).writes = 1) ∧
    (∀ (env2 : ApiEnv) (info2 : NodeInfo) (d2 : Bool),
      (RunCordonOrUncordon env2 info2 d2).writes ≤ 1) := by
  refine ⟨fun h => ?_, fun h => ?_, fun env2 info2 d2 => ?_⟩
  · simp [RunCordonOrUncordon, h1, h2, h]
  · simp only [RunCordonOrUncordon, h1]
    rw [if_pos h2, if_neg h]
    cases env.replaceNode nsp info.name { info with unschedulable := desired } <;> rfl
  · unfold RunCordonOrUncordon
    cases env2.defaultNamespace with
    | error e => simp
    | ok nsp2 =>
      dsimp only
      by_cases hk : info2.mappingKind = "Node"
      · rw [if_pos hk]
        by_cases hu : info2.unschedulable = d2
        · rw [if_pos hu]
          simp
        · rw [if_neg hu]
          cases env2.replaceNode nsp2 info2.name { info2 with unschedulable := d2 } <;>
            simp
      · rw [if_neg hk]
        simp

/-- C5 witness: cordoning the already-cordoned node performs zero writes
and reports "already cordoned". -/
theorem C5_cordon_idempotent_witness :
    exEnv.defaultNamespace = .ok "default" ∧
    cordonedNode.mappingKind = "Node" ∧
    ((cordonedNode.unschedulable = true →
      RunCordonOrUncordon exEnv cordonedNode true =
        ⟨cordonedNode, 0, some (already true), none⟩) ∧
    (cordonedNode.unschedulable ≠ true →
      (RunCordonOrUncordon exEnv cordonedNode true).writes = 1) ∧
    (∀ (env2 : ApiEnv) (info2 : NodeInfo) (d2 : Bool),
      (RunCordonOrUncordon env2 info2 d2).writes ≤ 1)) :=
  ⟨by decide, by decide,
    C5_cordon_idempotent exEnv cordonedNode true "default" (by decide) (by decide)⟩

/-- C8: on a resolved object whose schema kind is not "Node",
`RunCordonOrUncordon` leaves the object untouched, performs zero remote
writes, reports the "skipped" status and returns no error, for both
desired values. -/
theorem C8_non_node_skipped (env : ApiEnv) (info : NodeInfo) (nsp : String)
    (h1 : env.defaultNamespace = .ok nsp) (h2 : info.mappingKind ≠ "Node")
    (desired : Bool) :
    RunCordonOrUncordon env info desired = ⟨info, 0, some "skipped", none⟩ := by
  simp [RunCordonOrUncordon, h1, h2]

/-- C8 witness: the resolved ReplicationController object is skipped. -/
theorem C8_non_node_skipped_witness :
    exEnv.defaultNamespace = .ok "default" ∧
    exNonNode.mappingKind ≠ "Node" ∧
    RunCordonOrUncordon exEnv exNonNode true =
      ⟨exNonNode, 0, some "skipped", none⟩ :=
  ⟨by decide, by decide,
    C8_non_node_skipped exEnv exNonNode "default" (by decide) (by decide) true⟩

/-- C9: when the remote replace fails, the operation is not atomic on
local state: the returned in-memory node object already carries the
desired flag value (one write was attempted, no status printed, the
error is returned), and a subsequent invocation on that in-memory object
with the same desired value reports "already" and performs zero
writes. -/
theorem C9_replace_failure_local_state (env : ApiEnv) (info : NodeInfo)
    (desired : Bool) (nsp e : String)
    (h1 : env.defaultNamespace = .ok nsp) (h2 : info.mappingKind = "Node")
    (h3 : info.unschedulable ≠ desired)
    (h4 : env.replaceNode nsp info.name { info with unschedulable := desired } =
      .error e) :
    RunCordonOrUncordon env info desired =
      ⟨{ info with unschedulable := desired }, 1, none, some e⟩ ∧
    RunCordonOrUncordon env { info with unschedulable := desired } desired =
      ⟨{ info with unschedulable := desired }, 0, some (already desired), none⟩ := by
  constructor
  · simp only [RunCordonOrUncordon, h1]
    rw [if_pos h2, if_neg h3, h4]
  · simp [RunCordonOrUncordon, h1, h2]

/-- C9 witness: cordoning node-1 against the always-conflicting replace
leaves the in-memory flag set, and the retry reports "already
cordoned". -/
theorem C9_replace_failure_local_state_witness :
    exEnv.defaultNamespace = .ok "default" ∧
    exNode.mappingKind = "Node" ∧
    exNode.unschedulable ≠ true ∧
    exEnv.replaceNode "default" exNode.name { exNode with unschedulable := true } =
      .error "conflict" ∧
    (RunCordonOrUncordon exEnv exNode true =
        ⟨{ exNode with unschedulable := true }, 1, none, some "conflict"⟩ ∧
      RunCordonOrUncordon exEnv { exNode with unschedulable := true } true =
        ⟨{ exNode with unschedulable := true }, 0, some (already true), none⟩) :=
  ⟨by decide, by decide, by decide, by decide,
    C9_replace_failure_local_state exEnv exNode true "default" "conflict"
      (by decide) (by decide) (by decide) (by decide)⟩

end DrainSpec
